import Mathlib

/-!
Shallow embedding of `src/vk_rss/vk_rss.py` (module `vk_rss`), the core
transformation pipeline of the vk-groups-rss repository: attachment
rendering (`Attachment` and its per-kind rendering functions), the
unrendered-kind notices (`not_rendered_element_tag`), description building
(`description_post`), post normalisation (`post_parsing`) and the
per-group assembly loop of `rss_feed_for_group`.

Modelling conventions:
* Python dictionaries received from the VK API are embedded as structures
  holding exactly the fields the source reads; a field the source accesses
  with `.get` (which may be absent) is an `Option`.
* A Python exception that the source does not catch (`KeyError` from the
  rendering dispatcher, `IndexError` from `copy_history[0]`) is embedded
  as `none` of an `Option` result, propagated by every caller, because the
  script has no handler anywhere on that path: the whole feed for the
  group is lost.
* Python string formatting of `None` yields the text "None"; `pyStr`
  reproduces this.  Python `or` treats the empty string and `None` as
  falsy; `pyOrStr` reproduces this.
* `format` with the `.2f` presentation on `size / 1024**2`: for
  `size < 2^53` the float `size / 2^20` is the exact dyadic rational, and
  `.2f` rounds it to hundredths with ties to even; `format2f` computes
  exactly that on `Nat`.
* `datetime.fromtimestamp(date, tz=local_tz)` attaches the ambient local
  timezone (external I/O); the embedded `FeedItem` keeps the raw unix
  timestamp, the only post-derived datum in it.
-/

namespace VkRss

/-- Python `a or b` on two optional strings: `None` and `""` are falsy. -/
def pyOrStr : Option String → Option String → Option String
  | some s, b => if s = "" then b else some s
  | none, b => b

/-- Python `format` applied to `x` where `x` is an optional string: `None` prints
as "None". -/
def pyStr : Option String → String
  | some s => s
  | none => "None"

/-- Python `s.split("\n")` (the only separator `description_post` splits
on), written as structural recursion over the character list so that the
kernel can evaluate it. -/
def splitNlAux : List Char → List (List Char)
  | [] => [[]]
  | c :: rest =>
    match splitNlAux rest with
    | [] => [[c]]
    | h :: t => if c = '\n' then [] :: h :: t else (c :: h) :: t

/-- Python `s.split("\n")` on `String`. -/
def splitNewline (s : String) : List String :=
  (splitNlAux s.data).map String.mk

/-- Python `s.split("<p>")` (used by `_link_rendering` and
`_album_rendering`), structural recursion over the character list. -/
def splitPAux : List Char → List (List Char)
  | [] => [[]]
  | '<' :: 'p' :: '>' :: rest =>
    match splitPAux rest with
    | [] => [[]]
    | t => [] :: t
  | c :: rest =>
    match splitPAux rest with
    | [] => [[c]]
    | h :: t => (c :: h) :: t

/-- Python `s.split("<p>")` on `String`. -/
def splitPTag (s : String) : List String :=
  (splitPAux s.data).map String.mk

/-- Payload of a `photo` attachment: the six resolution keys the source
tries (each may be absent) and the caption `text` (read unconditionally). -/
structure PhotoDict where
  photo_2560 : Option String
  photo_1280 : Option String
  photo_807 : Option String
  photo_604 : Option String
  photo_130 : Option String
  photo_75 : Option String
  text : String
deriving DecidableEq

/-- Payload of a `video` attachment. -/
structure VideoDict where
  photo_800 : Option String
  photo_640 : Option String
  photo_320 : Option String
  photo_130 : Option String
  title : String
deriving DecidableEq

/-- Payload of an `audio` attachment. -/
structure AudioDict where
  url : String
  artist : String
  title : String
deriving DecidableEq

/-- Payload of a `doc` attachment.  `ext` is present in the VK payload but
never read by the source.  `size` is in bytes. -/
structure DocDict where
  type : Int
  url : String
  title : String
  ext : String
  size : Nat
deriving DecidableEq

/-- Payload of a `link` attachment; `photo` is the optional preview. -/
structure LinkDict where
  url : String
  title : String
  photo : Option PhotoDict
deriving DecidableEq

/-- Payload of an `album` attachment. -/
structure AlbumDict where
  thumb : PhotoDict
  title : String
deriving DecidableEq

/-- One poll answer.  The numeric `rate` is embedded as an integer; the
source only ever formats it with a plain `format` placeholder. -/
structure PollAnswer where
  text : String
  rate : Int
deriving DecidableEq

/-- Payload of a `poll` attachment. -/
structure PollDict where
  question : String
  answers : List PollAnswer
  votes : Nat
deriving DecidableEq

/-- One attachment: the `type` string tag together with the payload stored
under that key.  `other` covers every `type` string that is not one of the
seven the dispatcher of `Attachment.render` knows (its payload is never
read by the source, only the tag). -/
inductive Attachment where
  | photo (d : PhotoDict)
  | video (d : VideoDict)
  | audio (d : AudioDict)
  | doc (d : DocDict)
  | link (d : LinkDict)
  | album (d : AlbumDict)
  | poll (d : PollDict)
  | other (kind : String)
deriving DecidableEq

/-- The `att` key `type` string of an attachment. -/
def Attachment.attach_type : Attachment → String
  | .photo _ => "photo"
  | .video _ => "video"
  | .audio _ => "audio"
  | .doc _ => "doc"
  | .link _ => "link"
  | .album _ => "album"
  | .poll _ => "poll"
  | .other kind => kind

/-- Source `Attachment._image_tag`: html for an image and its description. -/
def image_tag (url : String) (description : String) : String :=
  "<img src=\"" ++ url ++ "\"><p>" ++ description ++ "</p>"

/-- Source `Attachment._photo_rendering`: pick the best-quality url with a chain
of Python `or` over the six resolution keys (so a key bound to the empty
string is passed over, and if every key is falsy the chain yields the raw
value of `photo_75`, formatted as "None" when absent), then emit the image
tag captioned with `text`. -/
def photo_rendering (d : PhotoDict) : String :=
  let photo_url :=
    pyOrStr d.photo_2560 (pyOrStr d.photo_1280 (pyOrStr d.photo_807
      (pyOrStr d.photo_604 (pyOrStr d.photo_130 d.photo_75))))
  image_tag (pyStr photo_url) d.text

/-- Source `Attachment._video_rendering`. -/
def video_rendering (d : VideoDict) : String :=
  let photo_url :=
    pyOrStr d.photo_800 (pyOrStr d.photo_640 (pyOrStr d.photo_320 d.photo_130))
  image_tag (pyStr photo_url) (d.title ++ " [Video]")

/-- Source `Attachment._audio_rendering`. -/
def audio_rendering (d : AudioDict) : String :=
  "<a href=\"" ++ d.url ++ "\">" ++ d.artist ++ " - " ++ d.title ++ " [Audio]</a>"

/-- Round `n / d` to the nearest integer, ties to even (the rounding of
a Python `.2f` format of an exactly representable value). -/
def roundHalfEven (n d : Nat) : Nat :=
  let q := n / d
  let r := n % d
  if 2 * r < d then q
  else if d < 2 * r then q + 1
  else if q % 2 = 0 then q else q + 1

/-- The value `size / 1024**2` rounded to a whole number of hundredths:
a `.2f` format of `size / 1024**2` prints `mbHundredths size` hundredths. -/
def mbHundredths (size : Nat) : Nat :=
  roundHalfEven (size * 100) (1024 * 1024)

/-- Left-pad the fractional part to two digits. -/
def twoDigits (n : Nat) : String :=
  (if n < 10 then "0" else "") ++ toString n

/-- Python `.2f` formatting of `size / 1024**2` for a byte count `size`
(exact for `size < 2^53`, which covers every real VK document). -/
def format2f (size : Nat) : String :=
  toString (mbHundredths size / 100) ++ "." ++ twoDigits (mbHundredths size % 100)

/-- Source `Attachment._doc_rendering`: type code 3 (a .gif) renders as an image
tag titled with `title`; anything else as a link labelled with the title
and the size in megabytes to two decimals (the `ext` field is not used). -/
def doc_rendering (d : DocDict) : String :=
  if d.type = 3 then image_tag d.url d.title
  else
    "<a href=\"" ++ d.url ++ "\">" ++ d.title ++ " - " ++ format2f d.size ++
      "MB [Doc]</a>"

/-- Source `Attachment._link_rendering`: an optional preview photo is rendered and
cut at the first `<p>` (dropping its caption), then wrapped in the link. -/
def link_rendering (d : LinkDict) : String :=
  let preview_tag :=
    match d.photo with
    | some preview => (splitPTag (photo_rendering preview)).headD ""
    | none => ""
  "<a href=\"" ++ d.url ++ "\">" ++ preview_tag ++ "<p>" ++ d.title ++ " [Link]</p></a>"

/-- Source `Attachment._album_rendering`: render the thumb photo, keep the part
before the first `<p>` and append the album title as the caption. -/
def album_rendering (d : AlbumDict) : String :=
  (splitPTag (photo_rendering d.thumb)).headD "" ++ "<p>" ++ d.title ++ " [Album]</p>"

/-- Thirty dashes, the Python dash literal repeated 30 times. -/
def thirtyDashes : String := "------------------------------"

/-- Source `Attachment._poll_rendering`. -/
def poll_rendering (d : PollDict) : String :=
  let poll_lines :=
    ["Pole: " ++ d.question, thirtyDashes] ++
      d.answers.map (fun ans => ans.text ++ " -- " ++ toString ans.rate) ++
      [thirtyDashes, "Number of votes: " ++ toString d.votes]
  String.intercalate "<br>" poll_lines

/-- Source `Attachment.render`: dispatch on the `type` tag through
`func_dispatcher`.  A tag outside the seven rendered kinds is a `KeyError`
in the source (no handler anywhere), embedded as `none`. -/
def Attachment.render : Attachment → Option String
  | .photo d => some (photo_rendering d)
  | .video d => some (video_rendering d)
  | .audio d => some (audio_rendering d)
  | .doc d => some (doc_rendering d)
  | .link d => some (link_rendering d)
  | .album d => some (album_rendering d)
  | .poll d => some (poll_rendering d)
  | .other _ => none

/-- Source `not_rendered_element_tag`: the notice for an element that is
acknowledged but not rendered. -/
def not_rendered_element_tag (element_type : String) : String :=
  "<strong>You can find " ++ element_type ++ " in the post</strong>"

/-- The keys of the `not_rendered_elms` dictionary, in its (insertion,
hence iteration) order. -/
def notRenderedKinds : List String :=
  ["photos_list", "comments", "note", "page", "market", "market_album", "sticker"]

/-- The `comments` sub-dictionary of a post: only `count` is read. -/
structure Comments where
  count : Nat
deriving DecidableEq

/-- A raw VK wall post, carrying exactly the fields the source reads.
`attachments`, `comments` and `copy_history` are accessed with `.get` and
may be absent.  `copy_history` holds posts itself, hence the nested
inductive. -/
inductive Post where
  | mk (text : String) (from_id : Int) (id : Int) (date : Int)
      (marked_as_ads : Bool) (attachments : Option (List Attachment))
      (comments : Option Comments) (copy_history : Option (List Post))

/-- Field `text` of a post. -/
def Post.text : Post → String
  | .mk t _ _ _ _ _ _ _ => t

/-- Field `from_id` of a post. -/
def Post.from_id : Post → Int
  | .mk _ f _ _ _ _ _ _ => f

/-- Field `id` of a post. -/
def Post.id : Post → Int
  | .mk _ _ i _ _ _ _ _ => i

/-- Field `date` of a post (unix timestamp). -/
def Post.date : Post → Int
  | .mk _ _ _ d _ _ _ _ => d

/-- Field `marked_as_ads` of a post. -/
def Post.marked_as_ads : Post → Bool
  | .mk _ _ _ _ a _ _ _ => a

/-- Field `attachments` of a post. -/
def Post.attachments : Post → Option (List Attachment)
  | .mk _ _ _ _ _ atts _ _ => atts

/-- Field `comments` of a post. -/
def Post.comments : Post → Option Comments
  | .mk _ _ _ _ _ _ c _ => c

/-- Field `copy_history` of a post. -/
def Post.copy_history : Post → Option (List Post)
  | .mk _ _ _ _ _ _ _ h => h

/-- The attachment loop of `description_post`: walk the `attachments` list of the post
accumulating the rendered tags (in order) and the keys of
`not_rendered_elms` that have been set to 1 (`seen`; the dictionary with
its seven fixed boolean values is embedded as the list of keys currently
true, queried by membership).  An attachment whose `type` is a key of
`not_rendered_elms` only sets its flag and is never rendered; any other
attachment goes through `Attachment.render`, whose `KeyError` (`none`)
aborts the whole call. -/
def attachmentLoop : List Attachment → List String → List String →
    Option (List String × List String)
  | [], attachment_tags, seen => some (attachment_tags, seen)
  | att :: rest, attachment_tags, seen =>
    let att_type := att.attach_type
    if notRenderedKinds.contains att_type then
      attachmentLoop rest attachment_tags (att_type :: seen)
    else
      match att.render with
      | none => none
      | some tag => attachmentLoop rest (attachment_tags ++ [tag]) seen

/-- Source `description_post`: the RSS item description of one post.  `none`
embeds the uncaught `KeyError` of an unknown attachment kind. -/
def description_post (post : Post) : Option String :=
  match attachmentLoop (post.attachments.getD []) [] [] with
  | none => none
  | some (attachment_tags, seen) =>
    let comments := post.comments.getD ⟨0⟩
    let seen := if comments.count ≠ 0 then "comments" :: seen else seen
    let all_tags :=
      attachment_tags ++
        (notRenderedKinds.filter (fun elm => seen.contains elm)).map
          not_rendered_element_tag
    let post_text := String.intercalate "<br>" (splitNewline post.text) ++ "<br>"
    some (post_text ++ String.intercalate "<br>" all_tags)

/-- The normalised RSS item built by `post_parsing`.  `pubDate` keeps the
raw unix timestamp of the post; attaching the ambient local timezone is
external I/O. -/
structure FeedItem where
  title : String
  link : String
  description : String
  guid : String
  pubDate : Int
deriving DecidableEq

/-- Source `post_parsing`: build the RSS item dictionary for one post (the one
the caller chose: the post itself, or `copy_history[0]` for a repost). -/
def post_parsing (post : Post) (group_name : String) : Option FeedItem :=
  match description_post post with
  | none => none
  | some desc =>
    some
      { title := if post.text ≠ "" then post.text.take 20 ++ "..." else group_name
        link := "https://vk.com/wall" ++ toString post.from_id ++ "_" ++ toString post.id
        description := desc
        guid := toString post.from_id ++ "_" ++ toString post.id
        pubDate := post.date }

/-- One iteration of the post loop of `rss_feed_for_group`.
`some none` is a `continue` (ads, or a repost while `reposts` is false);
`some (some item)` adds one entry; `none` is an uncaught exception ending
the whole call (`KeyError` from rendering, or `IndexError` from
`copy_history[0]` when `copy_history` is present but empty — note
the source only tests whether `copy_history` is absent). -/
def processPost (post : Post) (group_name : String) (reposts : Bool) :
    Option (Option FeedItem) :=
  if post.marked_as_ads then some none
  else
    match post.copy_history with
    | none => (post_parsing post group_name).map some
    | some hist =>
      if reposts then
        match hist with
        | [] => none
        | orig :: _ => (post_parsing orig group_name).map some
      else some none

/-- The post loop of `rss_feed_for_group`, over the posts already fetched
(`api.wall.get` and the `FeedGenerator` plumbing are external I/O): the
ordered list of RSS entries added to the feed, or `none` when an uncaught
exception destroys the whole feed. -/
def rss_feed_for_group (posts : List Post) (group_name : String)
    (reposts : Bool) : Option (List FeedItem) :=
  match posts with
  | [] => some []
  | post :: rest =>
    match processPost post group_name reposts with
    | none => none
    | some none => rss_feed_for_group rest group_name reposts
    | some (some item) =>
      (rss_feed_for_group rest group_name reposts).map (item :: ·)

/-- Step 1 of the description algorithm as the specification states it:
the post text split on line breaks, rejoined with the line-break marker,
plus one trailing marker. -/
def step1Text (post : Post) : String :=
  String.intercalate "<br>" (splitNewline post.text) ++ "<br>"

/-- Whether some attachment of the list carries the given `type` tag. -/
def hasKind (atts : List Attachment) (k : String) : Bool :=
  atts.any (fun a => a.attach_type == k)

/-- Whether some attachment of the list carries the given `type` tag and
that tag is one of the acknowledged-unrendered kinds (exactly the
attachments that set a flag in the loop of `description_post`). -/
def ackHasKind (atts : List Attachment) (k : String) : Bool :=
  atts.any (fun a => a.attach_type == k && notRenderedKinds.contains a.attach_type)

/-- Whether `description_post` emits the notice for kind `k` on this post:
`k` occurs among the attachment tags, or `k` is "comments" and the post
carries a nonzero comment count. -/
def noticeFlag (post : Post) (k : String) : Bool :=
  hasKind (post.attachments.getD []) k ||
    (k == "comments" && (post.comments.getD ⟨0⟩).count != 0)

/-- The notice fragments of a post, in the fixed kind order. -/
def noticesOf (post : Post) : List String :=
  (notRenderedKinds.filter (noticeFlag post)).map not_rendered_element_tag

/-- The url selection rule in the amended wording of the photo claim: the
first candidate, in descending resolution order, that is present with a
non-empty value (Python truthiness passes over a key bound to `""`). -/
def firstNonEmptyUrl : List (Option String) → Option String
  | [] => none
  | none :: rest => firstNonEmptyUrl rest
  | some u :: rest => if u = "" then firstNonEmptyUrl rest else some u

/-- The Python `or` chain over a list of candidates, last candidate kept
raw (the shape `_photo_rendering` and `_video_rendering` use). -/
def chainOr : List (Option String) → Option String
  | [] => none
  | [a] => a
  | a :: rest => pyOrStr a (chainOr rest)

/-- State-threaded `description_post`: the post record is passed through
the body and handed back next to the result.  Every statement of the
source only reads the post (no statement assigns into the post record or
into an attachment), so a hypothetical mutation would surface in the
second component. -/
def description_post_state (post : Post) : Option String × Post :=
  match attachmentLoop (post.attachments.getD []) [] [] with
  | none => (none, post)
  | some (attachment_tags, seen) =>
    let comments := post.comments.getD ⟨0⟩
    let seen := if comments.count ≠ 0 then "comments" :: seen else seen
    let all_tags :=
      attachment_tags ++
        (notRenderedKinds.filter (fun elm => seen.contains elm)).map
          not_rendered_element_tag
    let post_text := String.intercalate "<br>" (splitNewline post.text) ++ "<br>"
    (some (post_text ++ String.intercalate "<br>" all_tags), post)

/-- State-threaded `post_parsing`: the post record travels through
`description_post_state` and the field reads, and is handed back next to
the produced item. -/
def post_parsing_state (post : Post) (group_name : String) :
    Option FeedItem × Post :=
  match description_post_state post with
  | (none, st) => (none, st)
  | (some desc, st) =>
    (some
      { title := if st.text ≠ "" then st.text.take 20 ++ "..." else group_name
        link := "https://vk.com/wall" ++ toString st.from_id ++ "_" ++ toString st.id
        description := desc
        guid := toString st.from_id ++ "_" ++ toString st.id
        pubDate := st.date }, st)

/-- Claim C2, the behaviour the code actually has at the two error classes:
an attachment kind with no rendering rule and outside the acknowledged set
(here "wall") is an uncaught dispatcher `KeyError` that destroys the whole
feed — the intact second post is lost too, so the bad post is neither
skipped nor reported-and-passed-over; and a photo payload carrying none of
the six resolution keys raises nothing at all: the post is not skipped and
a feed item whose image source is the text "None" is silently emitted. -/
theorem unknown_kind_aborts_feed :
    rss_feed_for_group
      [.mk "x" 1 2 0 false (some [.other "wall"]) none none,
       .mk "y" 3 4 0 false none none none] "G" true = none ∧
    rss_feed_for_group
      [.mk "phototext" 1 2 0 false
        (some [.photo ⟨none, none, none, none, none, none, "cap"⟩]) none none]
      "G" true =
      some [{ title := "phototext...",
              link := "https://vk.com/wall1_2",
              description := "phototext<br><img src=\"None\"><p>cap</p>",
              guid := "1_2", pubDate := 0 }] := by
  decide

/-- Claim C4, the behaviour the code actually has when `copy_history` is
present but empty: the source only tests whether `copy_history` is absent,
so such a post takes the repost branch; with `reposts = true` the
`copy_history[0]` access is an uncaught `IndexError` that destroys the
whole feed, and with `reposts = false` the post is skipped — in neither
case is the post normalised into a feed item. -/
theorem empty_copy_history_not_normalized :
    rss_feed_for_group [.mk "t" 7 8 0 false none none (some [])] "G" true = none ∧
    rss_feed_for_group [.mk "t" 7 8 0 false none none (some [])] "G" false = some [] := by
  decide

/-- Counterexample to claim C3: for a repost wrapper with ids 7_8 whose
`copy_history[0]` has ids 100_5, the emitted link is the resolved original
post of the wall entry, not the wrapper actually returned by the fetch. -/
theorem repost_link_is_original_not_wrapper :
    (rss_feed_for_group
      [.mk "wrap" 7 8 22 false none none
        (some [.mk "orig text" 100 5 11 false none none none])] "G" true).map
        (List.map FeedItem.link) = some ["https://vk.com/wall100_5"] ∧
    ("https://vk.com/wall100_5" : String) ≠ "https://vk.com/wall7_8" := by
  decide

/-- Counterexample to claim C6 as stated: with `photo_2560` present but
bound to the empty string and `photo_75` bound to "u75", the renderer does
not select the highest-resolution key present (`photo_2560`); Python `or`
passes over the falsy empty string and picks "u75". -/
theorem photo_highest_present_key_refuted :
    photo_rendering ⟨some "", none, none, none, none, some "u75", "t"⟩ =
      image_tag "u75" "t" ∧
    (PhotoDict.photo_2560 ⟨some "", none, none, none, none, some "u75", "t"⟩) = some "" ∧
    image_tag "u75" "t" ≠ image_tag "" "t" := by
  decide

/-- Counterexample to claim C7 as stated: a post with zero attachments but
a nonzero comment count does not yield the step-1 text transform alone —
the post-level comment count appends the comments notice. -/
theorem zero_attachments_comments_notice :
    description_post (.mk "hi" 1 2 0 false (some []) (some ⟨3⟩) none) =
      some ("hi<br><strong>You can find comments in the post</strong>") ∧
    step1Text (.mk "hi" 1 2 0 false (some []) (some ⟨3⟩) none) = "hi<br>" ∧
    ("hi<br><strong>You can find comments in the post</strong>" : String) ≠ "hi<br>" := by
  decide

/-- Counterexample to claim C8 as stated: the comments notice is emitted
for a post whose attachments do not contain the kind "comments" at all,
because a nonzero post-level comment count also sets that flag — so a kind
not present among the attachments can still yield a notice. -/
theorem comments_notice_without_comments_attachment :
    description_post (.mk "pp" 9 9 0 false (some []) (some ⟨2⟩) none) =
      some ("pp<br><strong>You can find comments in the post</strong>") ∧
    hasKind ((Post.mk "pp" 9 9 0 false (some []) (some ⟨2⟩) none).attachments.getD [])
      "comments" = false := by
  decide

/-- Counterexample to claim C9 as stated: two docs differing only in
their extension render identically, so the link label cannot mention the
extension; the concrete label for a 2 MiB doc is exactly
"file - 2.00MB [Doc]" (title and size only). -/
theorem doc_label_ignores_extension :
    doc_rendering ⟨1, "u", "file", "pdf", 2097152⟩ =
      doc_rendering ⟨1, "u", "file", "txt", 2097152⟩ ∧
    doc_rendering ⟨1, "u", "file", "pdf", 2097152⟩ =
      "<a href=\"u\">file - 2.00MB [Doc]</a>" ∧
    (DocDict.ext ⟨1, "u", "file", "pdf", 2097152⟩) ≠
      (DocDict.ext ⟨1, "u", "file", "txt", 2097152⟩) := by
  decide


/-- Claim C1: for a repost wrapper (`copy_history` present and non-empty)
that is not an ad, processing with reposts enabled emits exactly the feed
item built from `copy_history[0]`, whose guid is from_id_id of the
resolved original (and whose link carries the same ids), independently of
the wrapper ids; with reposts disabled the wrapper contributes nothing. -/
theorem repost_resolved_from_copy_history (wrapper orig : Post) (hist : List Post)
    (g : String) (item : FeedItem)
    (hads : wrapper.marked_as_ads = false)
    (hhist : wrapper.copy_history = some (orig :: hist))
    (hitem : post_parsing orig g = some item) :
    processPost wrapper g true = some (some item) ∧
    item.guid = toString orig.from_id ++ "_" ++ toString orig.id ∧
    item.link = "https://vk.com/wall" ++ toString orig.from_id ++ "_" ++ toString orig.id ∧
    processPost wrapper g false = some none := by
  refine ⟨?_, ?_, ?_, ?_⟩
  · simp [processPost, hads, hhist, hitem]
  · unfold post_parsing at hitem
    cases hd : description_post orig with
    | none => rw [hd] at hitem; exact absurd hitem (by simp)
    | some desc =>
      rw [hd] at hitem
      injection hitem with h
      rw [← h]
  · unfold post_parsing at hitem
    cases hd : description_post orig with
    | none => rw [hd] at hitem; exact absurd hitem (by simp)
    | some desc =>
      rw [hd] at hitem
      injection hitem with h
      rw [← h]
  · simp [processPost, hads, hhist]

/-- Witness for C1 at a concrete wrapper with ids 7_8 and original
100_5. -/
theorem repost_resolved_from_copy_history_witness :
    processPost
      (.mk "wrap" 7 8 22 false none none
        (some [.mk "orig text" 100 5 11 false none none none])) "G" true =
      some (some { title := "orig text...", link := "https://vk.com/wall100_5",
                   description := "orig text<br>", guid := "100_5", pubDate := 11 }) ∧
    FeedItem.guid { title := "orig text...", link := "https://vk.com/wall100_5",
                    description := "orig text<br>", guid := "100_5", pubDate := 11 } =
      toString (Post.from_id (.mk "orig text" 100 5 11 false none none none)) ++ "_" ++
        toString (Post.id (.mk "orig text" 100 5 11 false none none none)) ∧
    FeedItem.link { title := "orig text...", link := "https://vk.com/wall100_5",
                    description := "orig text<br>", guid := "100_5", pubDate := 11 } =
      "https://vk.com/wall" ++
        toString (Post.from_id (.mk "orig text" 100 5 11 false none none none)) ++ "_" ++
        toString (Post.id (.mk "orig text" 100 5 11 false none none none)) ∧
    processPost
      (.mk "wrap" 7 8 22 false none none
        (some [.mk "orig text" 100 5 11 false none none none])) "G" false =
      some none :=
  repost_resolved_from_copy_history
    (.mk "wrap" 7 8 22 false none none
      (some [.mk "orig text" 100 5 11 false none none none]))
    (.mk "orig text" 100 5 11 false none none none) [] "G"
    { title := "orig text...", link := "https://vk.com/wall100_5",
      description := "orig text<br>", guid := "100_5", pubDate := 11 }
    rfl rfl (by decide)


/-- Claim C3 as amended: the link of a feed item is
"https://vk.com/wall{from_id}_{id}" of the post handed to `post_parsing`
(so it always agrees with the guid), and for a repost the assembler hands
over `copy_history[0]`, so the link points at the resolved original post,
not at the wrapper actually returned by the fetch. -/
theorem link_follows_parsed_post (post : Post) (g : String) (item : FeedItem)
    (h : post_parsing post g = some item) :
    item.link = "https://vk.com/wall" ++ toString post.from_id ++ "_" ++ toString post.id ∧
    item.link = "https://vk.com/wall" ++ item.guid ∧
    (∀ wrapper : Post, ∀ hist : List Post, wrapper.marked_as_ads = false →
      wrapper.copy_history = some (post :: hist) →
      processPost wrapper g true = some (some item)) := by
  have horig := h
  unfold post_parsing at h
  cases hd : description_post post with
  | none => rw [hd] at h; exact absurd h (by simp)
  | some desc =>
    rw [hd] at h
    injection h with h
    refine ⟨by rw [← h], ?_, ?_⟩
    · rw [← h]
      simp only [String.append_assoc]
    · intro wrapper hist hads hhist
      simp [processPost, hads, hhist, horig]

/-- Witness for the amended C3 at the concrete original post 100_5. -/
theorem link_follows_parsed_post_witness :
    FeedItem.link { title := "orig text...", link := "https://vk.com/wall100_5",
                    description := "orig text<br>", guid := "100_5", pubDate := 11 } =
      "https://vk.com/wall" ++
        toString (Post.from_id (.mk "orig text" 100 5 11 false none none none)) ++ "_" ++
        toString (Post.id (.mk "orig text" 100 5 11 false none none none)) ∧
    FeedItem.link { title := "orig text...", link := "https://vk.com/wall100_5",
                    description := "orig text<br>", guid := "100_5", pubDate := 11 } =
      "https://vk.com/wall" ++
        FeedItem.guid { title := "orig text...", link := "https://vk.com/wall100_5",
                        description := "orig text<br>", guid := "100_5", pubDate := 11 } ∧
    (∀ wrapper : Post, ∀ hist : List Post, wrapper.marked_as_ads = false →
      wrapper.copy_history =
        some ((.mk "orig text" 100 5 11 false none none none) :: hist) →
      processPost wrapper "G" true =
        some (some { title := "orig text...", link := "https://vk.com/wall100_5",
                     description := "orig text<br>", guid := "100_5", pubDate := 11 })) :=
  link_follows_parsed_post (.mk "orig text" 100 5 11 false none none none) "G"
    { title := "orig text...", link := "https://vk.com/wall100_5",
      description := "orig text<br>", guid := "100_5", pubDate := 11 }
    (by decide)

/-- Claim C5: a post with `marked_as_ads` true is always a bare skip, and
deleting all ad posts from the input leaves the output of the assembly
loop unchanged — ads never contribute a feed item, whether repost wrapper
or ordinary post, and the surviving posts keep their relative order. -/
theorem ads_never_contribute (posts : List Post) (g : String) (r : Bool) (p : Post)
    (hp : p.marked_as_ads = true) :
    processPost p g r = some none ∧
    rss_feed_for_group (posts.filter (fun q => !q.marked_as_ads)) g r =
      rss_feed_for_group posts g r := by
  constructor
  · simp [processPost, hp]
  · induction posts with
    | nil => rfl
    | cons q rest ih =>
      by_cases hq : q.marked_as_ads
      · have h1 : processPost q g r = some none := by simp [processPost, hq]
        simp [rss_feed_for_group, List.filter_cons, hq, h1, ih]
      · simp only [List.filter_cons, hq, Bool.not_false, if_pos]
        simp only [rss_feed_for_group]
        cases hpq : processPost q g r with
        | none => rfl
        | some o =>
          cases o with
          | none => exact ih
          | some item => rw [ih]


/-- Witness for C5 at a concrete two-post list led by an ad. -/
theorem ads_never_contribute_witness :
    processPost (.mk "ad" 1 2 0 true none none none) "G" true = some none ∧
    rss_feed_for_group
      (([.mk "ad" 1 2 0 true none none none,
         .mk "ok" 3 4 0 false none none none] : List Post).filter
        (fun q => !q.marked_as_ads)) "G" true =
      rss_feed_for_group
        [.mk "ad" 1 2 0 true none none none,
         .mk "ok" 3 4 0 false none none none] "G" true :=
  ads_never_contribute
    [.mk "ad" 1 2 0 true none none none, .mk "ok" 3 4 0 false none none none]
    "G" true (.mk "ad" 1 2 0 true none none none) rfl

/-- Unfolding equation of `chainOr` on a list of length at least two. -/
theorem chainOr_cons_cons (a b : Option String) (l : List (Option String)) :
    chainOr (a :: b :: l) = pyOrStr a (chainOr (b :: l)) := rfl

/-- When some candidate is present and non-empty, the Python `or` chain
evaluates to the first such candidate. -/
theorem chainOr_firstNonEmpty (l : List (Option String)) (u : String)
    (h : firstNonEmptyUrl l = some u) : pyStr (chainOr l) = u := by
  induction l with
  | nil => exact absurd h (by simp [firstNonEmptyUrl])
  | cons a rest ih =>
    cases rest with
    | nil =>
      cases a with
      | none => exact absurd h (by simp [firstNonEmptyUrl])
      | some s =>
        by_cases hs : s = ""
        · rw [firstNonEmptyUrl, if_pos hs] at h
          exact absurd h (by simp [firstNonEmptyUrl])
        · rw [firstNonEmptyUrl, if_neg hs] at h
          injection h with h
    | cons b rest2 =>
      cases a with
      | none =>
        rw [firstNonEmptyUrl] at h
        rw [chainOr_cons_cons, pyOrStr]
        exact ih h
      | some s =>
        by_cases hs : s = ""
        · rw [firstNonEmptyUrl, if_pos hs] at h
          rw [chainOr_cons_cons, pyOrStr, if_pos hs]
          exact ih h
        · rw [firstNonEmptyUrl, if_neg hs] at h
          injection h with h
          rw [chainOr_cons_cons, pyOrStr, if_neg hs, pyStr, h]

/-- Claim C6 as amended: the photo renderer selects the URL of the first
candidate key, in strict descending resolution order, that is present
with a non-empty value (Python truthiness skips a key bound to `""`), and
renders an image fragment captioned with the photo text. -/
theorem photo_first_nonempty_url_selected (d : PhotoDict) (u : String)
    (h : firstNonEmptyUrl
      [d.photo_2560, d.photo_1280, d.photo_807, d.photo_604, d.photo_130, d.photo_75] =
      some u) :
    photo_rendering d = image_tag u d.text := by
  show image_tag
    (pyStr (chainOr
      [d.photo_2560, d.photo_1280, d.photo_807, d.photo_604, d.photo_130, d.photo_75]))
    d.text = image_tag u d.text
  rw [chainOr_firstNonEmpty _ u h]

/-- Witness for the amended C6 at a photo whose best present key is
`photo_807`. -/
theorem photo_first_nonempty_url_selected_witness :
    photo_rendering ⟨none, none, some "uu", none, none, none, "txt"⟩ =
      image_tag "uu" "txt" :=
  photo_first_nonempty_url_selected ⟨none, none, some "uu", none, none, none, "txt"⟩
    "uu" (by decide)


/-- Claim C7 as amended: for a post with zero attachments (absent field
or empty sequence) and a zero or absent comment count, `description_post`
returns exactly the step-1 text transform — line breaks replaced by the
break marker plus one trailing marker — with no fragments and no
notices. -/
theorem zero_attachments_zero_comments_description (post : Post)
    (hatt : post.attachments.getD [] = [])
    (hcom : (post.comments.getD ⟨0⟩).count = 0) :
    description_post post = some (step1Text post) := by
  unfold description_post
  rw [hatt]
  show some (String.intercalate "<br>" (splitNewline post.text) ++ "<br>" ++
      String.intercalate "<br>"
        ([] ++ (notRenderedKinds.filter (fun elm =>
          List.contains (if (post.comments.getD ⟨0⟩).count ≠ 0 then ["comments"] else []) elm)).map
            not_rendered_element_tag)) = some (step1Text post)
  rw [if_neg (by simp [hcom])]
  simp [notRenderedKinds, step1Text, String.intercalate]

/-- Witness for the amended C7 at a two-line post without attachments. -/
theorem zero_attachments_zero_comments_description_witness :
    description_post (.mk "a\nb" 1 2 0 false none none none) =
      some (step1Text (.mk "a\nb" 1 2 0 false none none none)) :=
  zero_attachments_zero_comments_description
    (.mk "a\nb" 1 2 0 false none none none) (by decide) (by decide)

/-- Claim C9 as amended: a doc with type code 3 renders as an image
fragment captioned with its title; any other doc renders as a link
fragment labelled with the title and the size in megabytes (bytes divided
by 1024 squared) to two decimals — the extension is not part of the
label — and a whole number of mebibytes always formats with the ".00"
fraction, so 2097152 bytes prints as "2.00". -/
theorem doc_rendering_cases (d : DocDict) :
    (d.type = 3 → doc_rendering d = image_tag d.url d.title) ∧
    (d.type ≠ 3 → doc_rendering d =
      "<a href=\"" ++ d.url ++ "\">" ++ d.title ++ " - " ++ format2f d.size ++
        "MB [Doc]</a>") ∧
    (∀ m : Nat, format2f (m * (1024 * 1024)) = toString m ++ "." ++ "00") := by
  refine ⟨fun h => by rw [doc_rendering, if_pos h],
    fun h => by rw [doc_rendering, if_neg h], fun m => ?_⟩
  unfold format2f mbHundredths roundHalfEven
  have h1 : m * (1024 * 1024) * 100 = m * 100 * (1024 * 1024) := by ring
  rw [h1, Nat.mul_div_cancel _ (by norm_num), Nat.mul_mod_left]
  rw [if_pos (by norm_num)]
  rw [Nat.mul_div_cancel _ (by norm_num), Nat.mul_mod_left]
  rw [show twoDigits 0 = "00" from by decide]

/-- Witness for the amended C9 at a type-3 doc and at exactly two
mebibytes. -/
theorem doc_rendering_cases_witness :
    doc_rendering ⟨3, "gu", "gif title", "gif", 1⟩ =
      image_tag (DocDict.url ⟨3, "gu", "gif title", "gif", 1⟩)
        (DocDict.title ⟨3, "gu", "gif title", "gif", 1⟩) ∧
    format2f (2 * (1024 * 1024)) = toString 2 ++ "." ++ "00" :=
  ⟨(doc_rendering_cases ⟨3, "gu", "gif title", "gif", 1⟩).1 rfl,
   (doc_rendering_cases ⟨3, "gu", "gif title", "gif", 1⟩).2.2 2⟩


/-- The threaded description builder returns the description next to the
untouched post. -/
theorem description_post_state_spec (post : Post) :
    description_post_state post = (description_post post, post) := by
  unfold description_post_state description_post
  cases h : attachmentLoop (post.attachments.getD []) [] [] with
  | none => rfl
  | some pr =>
    obtain ⟨tags, seen⟩ := pr
    rfl

/-- The threaded normaliser returns the feed item next to the untouched
post. -/
theorem post_parsing_state_spec (post : Post) (g : String) :
    post_parsing_state post g = (post_parsing post g, post) := by
  unfold post_parsing_state post_parsing
  rw [description_post_state_spec]
  cases h : description_post post with
  | none => rfl
  | some desc => rfl

/-- Claim C10: neither `description_post` nor `post_parsing` mutates the
post — the state-threaded forms hand back the input record with every
field (text, from_id, id, date, marked_as_ads, attachments, comments,
copy_history) unchanged while computing the same results as the direct
forms, so normalising the post a second time yields the same feed item. -/
theorem normalization_preserves_post (post : Post) (g : String) :
    (description_post_state post).2 = post ∧
    (post_parsing_state post g).2 = post ∧
    (description_post_state post).1 = description_post post ∧
    (post_parsing_state post g).1 = post_parsing post g ∧
    (post_parsing_state post g).2.text = post.text ∧
    (post_parsing_state post g).2.from_id = post.from_id ∧
    (post_parsing_state post g).2.id = post.id ∧
    (post_parsing_state post g).2.date = post.date ∧
    (post_parsing_state post g).2.marked_as_ads = post.marked_as_ads ∧
    (post_parsing_state post g).2.attachments = post.attachments ∧
    (post_parsing_state post g).2.comments = post.comments ∧
    (post_parsing_state post g).2.copy_history = post.copy_history ∧
    post_parsing ((post_parsing_state post g).2) g = post_parsing post g := by
  rw [description_post_state_spec, post_parsing_state_spec]
  exact ⟨rfl, rfl, rfl, rfl, rfl, rfl, rfl, rfl, rfl, rfl, rfl, rfl, rfl⟩


/-- Characterisation of the attachment loop: either it aborts, or it
appends the rendered tags to the accumulator and returns a seen-set whose
members are the starting ones plus exactly the acknowledged kinds
occurring among the attachments. -/
theorem attachmentLoop_spec (atts : List Attachment) :
    ∀ (tags seen : List String),
    attachmentLoop atts tags seen = none ∨
    ∃ newtags seen2, attachmentLoop atts tags seen = some (tags ++ newtags, seen2) ∧
      ∀ k : String, seen2.contains k = true ↔
        (seen.contains k = true ∨ ackHasKind atts k = true) := by
  induction atts with
  | nil =>
    intro tags seen
    right
    refine ⟨[], seen, by simp [attachmentLoop], fun k => ?_⟩
    simp [ackHasKind]
  | cons att rest ih =>
    intro tags seen
    by_cases hc : att.attach_type ∈ notRenderedKinds
    · have hstep : attachmentLoop (att :: rest) tags seen =
          attachmentLoop rest tags (att.attach_type :: seen) := by
        simp [attachmentLoop, hc]
      rcases ih tags (att.attach_type :: seen) with hnone | ⟨newtags, seen2, heq, hcont⟩
      · left; rw [hstep, hnone]
      · right
        refine ⟨newtags, seen2, by rw [hstep, heq], fun k => ?_⟩
        rw [hcont k]
        simp only [ackHasKind, List.any_cons, List.contains_cons]
        simp [hc]
        tauto
    · cases hr : att.render with
      | none =>
        left
        simp [attachmentLoop, hc, hr]
      | some tag =>
        have hstep : attachmentLoop (att :: rest) tags seen =
            attachmentLoop rest (tags ++ [tag]) seen := by
          simp [attachmentLoop, hc, hr]
        rcases ih (tags ++ [tag]) seen with hnone | ⟨newtags, seen2, heq, hcont⟩
        · left; rw [hstep, hnone]
        · right
          refine ⟨tag :: newtags, seen2, ?_, fun k => ?_⟩
          · rw [hstep, heq, List.append_assoc]
            rfl
          · rw [hcont k]
            simp only [ackHasKind, List.any_cons]
            simp [hc]


/-- For a kind that is itself acknowledged, flag-setting occurrences and
plain occurrences among the attachments coincide. -/
theorem ackHasKind_eq_hasKind (atts : List Attachment) (k : String)
    (hk : k ∈ notRenderedKinds) : ackHasKind atts k = hasKind atts k := by
  unfold ackHasKind hasKind
  induction atts with
  | nil => rfl
  | cons a rest ih =>
    simp only [List.any_cons]
    rw [ih]
    cases ha : a.attach_type == k with
    | false => simp
    | true =>
      have hak : a.attach_type = k := eq_of_beq ha
      rw [hak]
      simp [hk]

/-- The notice texts of the seven acknowledged kinds are pairwise
distinct. -/
theorem tag_inj_on : ∀ k1 ∈ notRenderedKinds, ∀ k2 ∈ notRenderedKinds,
    not_rendered_element_tag k1 = not_rendered_element_tag k2 → k1 = k2 := by
  decide

/-- The filter over the fixed kind list driven by the seen-set built by
the attachment loop (plus the comment-count flag) equals the filter driven
by `noticeFlag`. -/
theorem seen_filter_eq (post : Post) (seen2 : List String)
    (hcont : ∀ k : String, seen2.contains k = true ↔
      (([] : List String).contains k = true ∨
        ackHasKind (post.attachments.getD []) k = true)) :
    notRenderedKinds.filter (fun elm =>
      (if (post.comments.getD ⟨0⟩).count ≠ 0 then "comments" :: seen2
        else seen2).contains elm) =
    notRenderedKinds.filter (noticeFlag post) := by
  apply List.filter_congr
  intro k hk
  by_cases hcnt : (post.comments.getD ⟨0⟩).count = 0
  · rw [if_neg (by simp [hcnt])]
    apply Bool.coe_iff_coe.mp
    rw [hcont k, ackHasKind_eq_hasKind _ _ hk]
    simp [noticeFlag, hcnt]
  · rw [if_pos hcnt]
    apply Bool.coe_iff_coe.mp
    simp only [List.contains_cons, Bool.or_eq_true]
    rw [hcont k, ackHasKind_eq_hasKind _ _ hk]
    simp [noticeFlag, hcnt]
    tauto


/-- Successful runs of `description_post` decompose as the step-1 text
transform followed by the rendered tags and then the notice fragments. -/
theorem description_post_some (post : Post) (newtags seen2 : List String)
    (heq : attachmentLoop (post.attachments.getD []) [] [] =
      some (([] : List String) ++ newtags, seen2))
    (hcont : ∀ k : String, seen2.contains k = true ↔
      (([] : List String).contains k = true ∨
        ackHasKind (post.attachments.getD []) k = true)) :
    description_post post =
      some (step1Text post ++
        String.intercalate "<br>" (newtags ++ noticesOf post)) := by
  unfold description_post
  rw [heq]
  show some (String.intercalate "<br>" (splitNewline post.text) ++ "<br>" ++
      String.intercalate "<br>" ((([] : List String) ++ newtags) ++
        (notRenderedKinds.filter (fun elm =>
          (if (post.comments.getD ⟨0⟩).count ≠ 0 then "comments" :: seen2
            else seen2).contains elm)).map not_rendered_element_tag)) = _
  rw [seen_filter_eq post seen2 hcont, List.nil_append]
  rfl

/-- Claim C8 as amended: every successful description splits into the
step-1 text, rendered fragments, and the notice list `noticesOf`; a kind
of the acknowledged set has its notice present iff its flag holds (its
occurrence among the attachments — or, for "comments" only, also a
nonzero post-level comment count, the one exception to the claim as
stated); the notice list has no duplicates (repeated attachments of one
kind are idempotent) and is a sublist of the fixed kind order, hence
deterministically ordered; and duplicating the attachment list leaves the
notices unchanged. -/
theorem notice_fragments_characterized (post : Post) (s : String)
    (h : description_post post = some s) :
    (∃ rendered, s = step1Text post ++
        String.intercalate "<br>" (rendered ++ noticesOf post)) ∧
    (∀ k, k ∈ notRenderedKinds →
      (not_rendered_element_tag k ∈ noticesOf post ↔ noticeFlag post k = true)) ∧
    (noticesOf post).Nodup ∧
    List.Sublist (noticesOf post) (notRenderedKinds.map not_rendered_element_tag) ∧
    (∀ q q2 : Post,
      q2.attachments = some (q.attachments.getD [] ++ q.attachments.getD []) →
      q2.comments = q.comments → noticesOf q2 = noticesOf q) := by
  refine ⟨?_, ?_, ?_, ?_, ?_⟩
  · rcases attachmentLoop_spec (post.attachments.getD []) [] [] with
      hnone | ⟨newtags, seen2, heq, hcont⟩
    · rw [description_post, hnone] at h
      exact absurd h (by simp)
    · have hsome := description_post_some post newtags seen2 heq hcont
      rw [h] at hsome
      injection hsome with hs
      exact ⟨newtags, hs⟩
  · intro k hk
    constructor
    · intro hmem
      rcases List.mem_map.mp hmem with ⟨k2, hk2f, htag⟩
      rcases List.mem_filter.mp hk2f with ⟨hk2mem, hflag⟩
      rwa [← tag_inj_on k2 hk2mem k hk htag]
    · intro hflag
      exact List.mem_map_of_mem _ (List.mem_filter.mpr ⟨hk, hflag⟩)
  · exact ((by decide : notRenderedKinds.Nodup).filter _).map_on
      (fun x hx y hy => tag_inj_on x (List.mem_of_mem_filter hx) y
        (List.mem_of_mem_filter hy))
  · exact List.Sublist.map not_rendered_element_tag (List.filter_sublist _)
  · intro q q2 h1 h2
    unfold noticesOf
    congr 1
    apply List.filter_congr
    intro k hk
    simp [noticeFlag, hasKind, h1, h2, List.any_append]

/-- Witness for the amended C8 at a post with duplicate sticker
attachments and one page attachment. -/
theorem notice_fragments_characterized_witness :
    (∃ rendered,
      "w<br><strong>You can find page in the post</strong><br><strong>You can find sticker in the post</strong>" =
        step1Text (.mk "w" 1 2 0 false (some [.other "sticker", .other "sticker", .other "page"])
          (some ⟨0⟩) none) ++
        String.intercalate "<br>" (rendered ++ noticesOf
          (.mk "w" 1 2 0 false (some [.other "sticker", .other "sticker", .other "page"])
            (some ⟨0⟩) none))) ∧
    (∀ k, k ∈ notRenderedKinds →
      (not_rendered_element_tag k ∈ noticesOf
          (.mk "w" 1 2 0 false (some [.other "sticker", .other "sticker", .other "page"])
            (some ⟨0⟩) none) ↔
        noticeFlag (.mk "w" 1 2 0 false (some [.other "sticker", .other "sticker", .other "page"])
          (some ⟨0⟩) none) k = true)) ∧
    (noticesOf (.mk "w" 1 2 0 false (some [.other "sticker", .other "sticker", .other "page"])
      (some ⟨0⟩) none)).Nodup ∧
    List.Sublist
      (noticesOf (.mk "w" 1 2 0 false (some [.other "sticker", .other "sticker", .other "page"])
        (some ⟨0⟩) none))
      (notRenderedKinds.map not_rendered_element_tag) ∧
    (∀ q q2 : Post,
      q2.attachments = some (q.attachments.getD [] ++ q.attachments.getD []) →
      q2.comments = q.comments → noticesOf q2 = noticesOf q) :=
  notice_fragments_characterized
    (.mk "w" 1 2 0 false (some [.other "sticker", .other "sticker", .other "page"])
      (some ⟨0⟩) none)
    "w<br><strong>You can find page in the post</strong><br><strong>You can find sticker in the post</strong>"
    (by decide)

end VkRss
